import Mathlib

/-!
# Verification of the Web-Retrace backend core

A shallow embedding of `src/backend/main.py` (the Web-Retrace API): the
document-ingestion pipeline (`memorize`), the two answer endpoints (`chat`,
`chat_free`), and the document-view endpoint (`get_page_detail`), over an
explicit model of the external chunk store (the ChromaDB collection) and of
the external capabilities (text splitter, hash, clock, similarity query,
generation service).

Machine-level conventions: Python strings are Lean `String`s, Python slicing
`s[:n]` is `strTake`, Python `"sep".join(xs)` is `joinSep`, Python `min` is
`Nat.min`.  Stateful code is explicit state passing on the `Collection`
state; fallible calls return `Except String`.
-/

namespace WebRetrace

/-- Metadata attached to every stored chunk, as built in `memorize`
(src/backend/main.py lines 186-192). -/
structure ChunkMeta where
  title : String
  source_id : String
  chunk_index : Nat
  total_chunks : Nat
  timestamp : String
deriving Repr, DecidableEq

/-- One record of the ChromaDB collection: its string id, its document text
and its metadata. -/
structure StoredChunk where
  id : String
  text : String
  meta : ChunkMeta
deriving Repr, DecidableEq

/-- The external chunk store (the ChromaDB collection `web_pages`), modelled
as the list of stored chunks in insertion order. -/
structure Collection where
  chunks : List StoredChunk
deriving Repr, DecidableEq

/-- `collection.count()`. -/
def Collection.count (c : Collection) : Nat := c.chunks.length

/-- Models ChromaDB `collection.add`: client-side validation rejects an empty
id list (raising `Expected IDs to be a non-empty list`); otherwise the batch
write is atomic — it either fails as a whole (`storeFail` is the outcome of
the underlying storage operation, chosen by the environment) or appends every
chunk of the batch in order. -/
def Collection.add (storeFail : Option String) (c : Collection)
    (batch : List StoredChunk) : Except String Collection :=
  if batch.isEmpty then
    Except.error "Expected IDs to be a non-empty list, got 0 IDs"
  else
    match storeFail with
    | some e => Except.error e
    | none => Except.ok ⟨c.chunks ++ batch⟩

/-- `collection.get(where=(source_id = sid))` as used by `get_page_detail`:
the stored chunks whose metadata matches the filter, in store order. -/
def Collection.getWhere (c : Collection) (sid : String) : List StoredChunk :=
  c.chunks.filter (fun ch => ch.meta.source_id == sid)

/-- Request body of POST /memorize. -/
structure MemorizeRequest where
  title : String
  content : String

/-- Response model of POST /memorize. -/
structure MemorizeResponse where
  status : String
  doc_id : String
  title : String
  message : String
deriving Repr, DecidableEq

/-- The external capabilities `memorize` uses: the langchain
`RecursiveCharacterTextSplitter.split_text` (chunk_size=1000, overlap=200),
the clock `datetime.now().isoformat()`, the hash `hashlib.md5(...).hexdigest()`
and the outcome of the underlying storage write. -/
structure IngestEnv where
  split_text : String → List String
  now : String
  md5hex : String → String
  store_fail : Option String

/-- The `source_id` computed at src/backend/main.py line 169:
`hashlib.md5((title + timestamp).encode()).hexdigest()`. -/
def sourceIdOf (env : IngestEnv) (title : String) : String :=
  env.md5hex (title ++ env.now)

/-- The loop of src/backend/main.py lines 179-192: for each chunk, build its
id `source_id ++ "_chunk_" ++ i` and its metadata.  `i` is the running
enumeration index, `total` the total number of chunks. -/
def chunkBatchFrom (title source_id timestamp : String) (total : Nat) :
    Nat → List String → List StoredChunk
  | _, [] => []
  | i, chunk :: rest =>
      { id := source_id ++ "_chunk_" ++ toString i
        text := chunk
        meta := { title := title, source_id := source_id, chunk_index := i,
                  total_chunks := total, timestamp := timestamp } }
        :: chunkBatchFrom title source_id timestamp total (i + 1) rest

/-- The full batch prepared by `memorize` for a given chunk list. -/
def chunkBatch (title source_id timestamp : String) (chunks : List String) :
    List StoredChunk :=
  chunkBatchFrom title source_id timestamp chunks.length 0 chunks

/-- POST /memorize (src/backend/main.py lines 155-214).  Splits the content,
prepares the id/document/metadata batch, writes it to the collection in one
`add` call, and returns the response model; the surrounding `try/except`
converts any failure into a well-formed `error` response with an empty
`doc_id`, leaving the store untouched. -/
def memorize (env : IngestEnv) (c : Collection) (req : MemorizeRequest) :
    MemorizeResponse × Collection :=
  let timestamp := env.now
  let source_id := env.md5hex (req.title ++ timestamp)
  let chunks := env.split_text req.content
  let batch := chunkBatch req.title source_id timestamp chunks
  match Collection.add env.store_fail c batch with
  | Except.ok c2 =>
      (⟨"success", source_id, req.title,
        "成功存储页面: " ++ req.title ++ " (拆分为 " ++ toString chunks.length
          ++ " 个文本块)"⟩, c2)
  | Except.error e =>
      (⟨"error", "", req.title, "存储失败: " ++ e⟩, c)

/-- Modelled from the spec: the Chunker (the external langchain splitter,
whose code is not part of this repository) produces "`[]` for empty input"
and the ingest contract treats content that is "empty/blank" the same way —
a splitter satisfies this when it returns no chunks for whitespace-only
input. -/
def SplitterBlankSpec (split : String → List String) : Prop :=
  ∀ s : String, s.data.all (fun ch => ch.isWhitespace) = true → split s = []

/-- Python slicing `s[:n]`: the first `n` characters (code points). -/
def strTake (s : String) (n : Nat) : String := ⟨s.data.take n⟩

/-- `"sep".join(xs)` of Python. -/
def joinSep (sep : String) : List String → String
  | [] => ""
  | [s] => s
  | s :: rest => s ++ sep ++ joinSep sep (rest)

/-- Concatenation of a list of strings, the `+=` accumulation loops of
`chat`'s degraded renderings. -/
def joinAll : List String → String
  | [] => ""
  | s :: rest => s ++ joinAll rest

/-- `t` occurs as a contiguous substring of `s`. -/
def strContains (s t : String) : Prop :=
  ∃ pre post : String, s = pre ++ t ++ post

/-- Request body of POST /chat and POST /chat-free. -/
structure ChatRequest where
  message : String

/-- Response model of POST /chat and POST /chat-free. -/
structure ChatResponse where
  response : String
  status : String
deriving Repr, DecidableEq

/-- One ranked hit of `collection.query`: the pair of a document text and its
metadata, as consumed by the zip of `results.documents[0]` with
`results.metadatas[0]`. -/
structure QueryHit where
  doc : String
  meta : ChunkMeta
deriving Repr, DecidableEq

/-- The external capabilities used by the answer endpoints: the similarity
capability `collection.query(query_texts=[q], n_results=n)` (its ranked
hits), and the generation capability — `none` models `get_llm_client()`
returning `None` (empty `LLM_API_KEY`); `some g` models a configured client
whose single `chat.completions.create` call on a (system prompt, user
message) pair either returns the completion text or raises.  Fixed call
arguments (model name, temperature, max_tokens) are absorbed into the
capability. -/
structure ChatEnv where
  query_fn : String → Nat → List QueryHit
  llm : Option (String → String → Except String String)

/-- The empty-knowledge-base reply of `chat` (src/backend/main.py line 233). -/
def emptyKnowledgeText (message : String) : String :=
  "收到您的消息：" ++ message
    ++ "\n\n💡 提示：目前还没有记忆任何页面。点击「Memorize This Page」按钮来保存页面内容。"

/-- The no-relevant-content reply of `chat` (src/backend/main.py line 247). -/
def noMatchText (message : String) : String :=
  "收到您的消息：" ++ message ++ "\n\n未找到相关的页面内容。"

/-- One labeled context block of `chat` (src/backend/main.py line 258):
rank index, source title, chunk ordinal, then the full chunk text. -/
def strictBlock (i : Nat) (hit : QueryHit) : String :=
  "[片段 " ++ toString i ++ " - 来自: " ++ hit.meta.title ++ ", 块 #"
    ++ toString hit.meta.chunk_index ++ "]\n" ++ hit.doc

/-- One labeled context block of `chat_free` (src/backend/main.py line 365):
rank index and source title, then the full chunk text (no ordinal). -/
def freeBlock (i : Nat) (hit : QueryHit) : String :=
  "[参考 " ++ toString i ++ " - " ++ hit.meta.title ++ "]\n" ++ hit.doc

/-- The `enumerate(..., 1)` loops building the context block lists. -/
def contextBlocksFrom (block : Nat → QueryHit → String) :
    Nat → List QueryHit → List String
  | _, [] => []
  | i, hit :: rest => block i hit :: contextBlocksFrom block (i + 1) rest

/-- `chat`'s assembled context: strict blocks joined with a blank line
(src/backend/main.py lines 254-260). -/
def buildContext (hits : List QueryHit) : String :=
  joinSep "\n\n" (contextBlocksFrom strictBlock 1 hits)

/-- `chat_free`'s assembled context (src/backend/main.py lines 362-366). -/
def buildContextFree (hits : List QueryHit) : String :=
  joinSep "\n\n" (contextBlocksFrom freeBlock 1 hits)

/-- The raw-snippet truncation `doc[:150] + "..." if len(doc) > 150 else doc`
used by both degraded renderings of `chat`. -/
def snippet (doc : String) : String :=
  if doc.length > 150 then strTake doc 150 ++ "..." else doc

/-- One line of the degraded snippet listing
(src/backend/main.py lines 302 and 317). -/
def snippetEntry (i : Nat) (hit : QueryHit) : String :=
  "📄 " ++ toString i ++ ". " ++ hit.meta.title ++ "\n" ++ snippet hit.doc
    ++ "\n\n"

/-- The `enumerate(..., 1)` loops rendering the snippet listings. -/
def snippetEntriesFrom : Nat → List QueryHit → List String
  | _, [] => []
  | i, hit :: rest => snippetEntry i hit :: snippetEntriesFrom (i + 1) rest

/-- The degraded response built when the generation call raises
(src/backend/main.py lines 296-308): marker header, the snippet listing over
all retrieved chunks, and the error detail. -/
def fallbackText (hits : List QueryHit) (err : String) : String :=
  "⚠️ LLM 服务暂时不可用，为您展示相关片段：\n\n"
    ++ joinAll (snippetEntriesFrom 1 hits)
    ++ ("\n🔧 错误详情: " ++ err)

/-- The response built when no generation client is configured
(src/backend/main.py lines 310-317): configuration hint, echo of the
question, and the same snippet listing. -/
def unconfiguredText (message : String) (hits : List QueryHit) : String :=
  "💡 提示：请配置 LLM API Key 以获得智能问答功能。\n\n根据您的问题「" ++ message
    ++ "」，找到以下相关内容：\n\n"
    ++ joinAll (snippetEntriesFrom 1 hits)

/-- The strict-mode system prompt (src/backend/main.py lines 267-270). -/
def strictSystemPrompt : String :=
  "You are a helpful assistant. Answer the user's question based ONLY on the following context snippets. \nIf the answer is not in the context, say you don't know. \nPlease answer in the same language as the user's question.\nBe concise and accurate."

/-- The strict-mode user message (src/backend/main.py lines 272-275). -/
def strictUserMessage (context message : String) : String :=
  "Context:\n" ++ context ++ "\n\nQuestion: " ++ message

/-- The free-form system prompt (src/backend/main.py lines 369-374). -/
def freeSystemPrompt : String :=
  "You are a helpful and knowledgeable assistant. \nIf the user's question relates to the provided context, use it as a reference.\nHowever, you are NOT limited to the context - you can also use your general knowledge to provide a comprehensive answer.\nIf the context is empty or irrelevant, just answer based on your general knowledge.\nPlease answer in the same language as the user's question.\nBe helpful, accurate, and engaging."

/-- The free-form user message when the context is non-empty
(src/backend/main.py lines 377-380). -/
def freeUserMessage (context message : String) : String :=
  "参考资料（如相关）:\n" ++ context ++ "\n\n用户问题: " ++ message

/-- POST /chat (src/backend/main.py lines 216-328), strict grounded mode.
Returns the response model together with the trace of
`(query_text, n_results)` pairs passed to the similarity capability, so
that statements about the issued queries can be made.  All modelled
operations are total, so the outer `except` of the handler (reachable in
the source only through a failing store or transport) has no branch here;
the generation call's failure is caught by the inner `except` and rendered
as the fallback response. -/
def chat (env : ChatEnv) (c : Collection) (req : ChatRequest) :
    ChatResponse × List (String × Nat) :=
  let count := c.count
  if count = 0 then
    (⟨emptyKnowledgeText req.message, "success"⟩, [])
  else
    let n := min 15 count
    let hits := env.query_fn req.message n
    let resp : ChatResponse :=
      if hits.isEmpty then
        ⟨noMatchText req.message, "success"⟩
      else
        match env.llm with
        | some generate =>
            match generate strictSystemPrompt
                (strictUserMessage (buildContext hits) req.message) with
            | Except.ok text => ⟨text, "success"⟩
            | Except.error e => ⟨fallbackText hits e, "fallback"⟩
        | none => ⟨unconfiguredText req.message hits, "success"⟩
    (resp, [(req.message, n)])

/-- The single generation call of POST /chat-free and its surrounding
`except` (src/backend/main.py lines 385-406): a successful call returns the
completion text with status `success`; a raising call is caught by the
handler's generic `except` and rendered as `处理消息时出错` with the hard
`error` status. -/
def chatFreeGenerate (generate : String → String → Except String String)
    (user_message : String) : ChatResponse :=
  match generate freeSystemPrompt user_message with
  | Except.ok text => ⟨text, "success"⟩
  | Except.error e => ⟨"处理消息时出错: " ++ e, "error"⟩

/-- POST /chat-free (src/backend/main.py lines 330-406), free-form assistive
mode, continued: the endpoint itself.  Returns the response model and the
similarity-query trace.  An unconfigured client returns the hard `error`
status at once; a raising generation call is caught by the handler's
`except` and also rendered with status `error` (`chatFreeGenerate`). -/
def chat_free (env : ChatEnv) (c : Collection) (req : ChatRequest) :
    ChatResponse × List (String × Nat) :=
  match env.llm with
  | none => (⟨"⚠️ LLM未配置，请在桌面客户端设置中配置API Key", "error"⟩, [])
  | some generate =>
      let count := c.count
      if 0 < count then
        let n := min 5 count
        let hits := env.query_fn req.message n
        let context := if hits.isEmpty then "" else buildContextFree hits
        let user_message :=
          if context = "" then req.message else freeUserMessage context req.message
        (chatFreeGenerate generate user_message, [(req.message, n)])
      else
        (chatFreeGenerate generate req.message, [])

/-- Modelled from the spec: the legacy/simple answer mode, whose code is not
part of src/backend (only strict and free-form endpoints exist there); per
the spec its Retriever issues `query(query, top_n)` with
`top_n = min(3, count())` on a non-empty store. -/
def legacyRetrieveTopN (count : Nat) : Nat := min 3 count

/-- The page-detail payload of GET /pages/(page_id). -/
structure PageDetail where
  id : String
  title : String
  timestamp : String
  chunks : Nat
  content : String
deriving Repr, DecidableEq

/-- Outcome of GET /pages/(page_id): the detail payload, or the
`页面不存在` (page does not exist) error object. -/
inductive PageResult where
  | found (d : PageDetail)
  | notFound (id : String)
deriving Repr, DecidableEq

/-- GET /pages/(page_id) (src/backend/main.py lines 456-495): fetch all
chunks with the given `source_id`, fail when none match, otherwise take the
first chunk's metadata and join all chunk texts with a blank line. -/
def get_page_detail (c : Collection) (page_id : String) : PageResult :=
  let results := c.getWhere page_id
  match results with
  | [] => PageResult.notFound page_id
  | first :: rest =>
      PageResult.found
        { id := page_id
          title := first.meta.title
          timestamp := first.meta.timestamp
          chunks := (first :: rest).length
          content := joinSep "\n\n" ((first :: rest).map (fun ch => ch.text)) }

/-- A stand-in external splitter used to instantiate witnesses: returns no
chunks for whitespace-only input, one chunk otherwise. -/
def splitW : String → List String := fun s =>
  if s.data.all (fun ch => ch.isWhitespace) then [] else [s]

/-- A concrete ingestion environment for witnesses. -/
def envW : IngestEnv :=
  { split_text := splitW
    now := "2026-01-01T00:00:00"
    md5hex := fun _ => "0123abcd0123abcd0123abcd0123abcd"
    store_fail := none }

/-- A concrete retrieval hit for witnesses. -/
def hitW1 : QueryHit := ⟨"dog", ⟨"T1", "s", 2, 3, "ts"⟩⟩

/-- A concrete answer environment with no generation client configured. -/
def envChat : ChatEnv := { query_fn := fun _ _ => [hitW1], llm := none }

/-- A concrete answer environment whose configured generation client always
raises. -/
def envChatFail : ChatEnv :=
  { query_fn := fun _ _ => [hitW1]
    llm := some (fun _ _ => Except.error "boom") }

/-- A concrete one-chunk collection for witnesses. -/
def collOne : Collection := ⟨[⟨"id0", "dog", ⟨"T1", "s", 0, 1, "ts"⟩⟩]⟩

/-- A concrete retrieval hit whose ordinal is 7 while no character `7`
occurs in its text or title. -/
def hitCex : QueryHit := ⟨"alpha beta", ⟨"Notes", "s", 7, 9, "ts"⟩⟩

theorem strContains_self (t : String) : strContains t t :=
  ⟨"", "", by simp⟩

theorem strContains_here (a t b : String) : strContains (a ++ t ++ b) t :=
  ⟨a, b, rfl⟩

theorem strContains_suffix (a t : String) : strContains (a ++ t) t :=
  ⟨a, "", by simp⟩

theorem strContains_front (t b : String) : strContains (t ++ b) t :=
  ⟨"", b, by simp⟩

theorem strContains_append_left (x : String) {s t : String}
    (h : strContains s t) : strContains (x ++ s) t := by
  obtain ⟨p, q, rfl⟩ := h
  exact ⟨x ++ p, q, by simp [String.append_assoc]⟩

theorem strContains_append_right (x : String) {s t : String}
    (h : strContains s t) : strContains (s ++ x) t := by
  obtain ⟨p, q, rfl⟩ := h
  exact ⟨p, q ++ x, by simp [String.append_assoc]⟩

theorem strContains_trans {s t u : String} (h1 : strContains s t)
    (h2 : strContains t u) : strContains s u := by
  obtain ⟨p1, q1, rfl⟩ := h1
  obtain ⟨p2, q2, rfl⟩ := h2
  exact ⟨p1 ++ p2, q2 ++ q1, by simp [String.append_assoc]⟩

theorem strContains_joinSep {sep : String} {l : List String} {s : String}
    (h : s ∈ l) : strContains (joinSep sep l) s := by
  induction l with
  | nil => cases h
  | cons a rest ih =>
      cases rest with
      | nil =>
          rcases List.mem_singleton.mp h with rfl
          exact strContains_self s
      | cons b tl =>
          rcases List.mem_cons.mp h with rfl | hmem
          · exact strContains_append_right _
              (strContains_append_right _ (strContains_self s))
          · exact strContains_append_left _ (ih hmem)

theorem strContains_joinAll {l : List String} {s : String}
    (h : s ∈ l) : strContains (joinAll l) s := by
  induction l with
  | nil => cases h
  | cons a rest ih =>
      rcases List.mem_cons.mp h with rfl | hmem
      · exact strContains_front _ _
      · exact strContains_append_left _ (ih hmem)

theorem chunkBatchFrom_length (t s ts : String) (total : Nat) :
    ∀ (i : Nat) (l : List String),
      (chunkBatchFrom t s ts total i l).length = l.length := by
  intro i l
  induction l generalizing i with
  | nil => rfl
  | cons a rest ih => simp [chunkBatchFrom, ih]

theorem chunkBatchFrom_map_text (t s ts : String) (total : Nat) :
    ∀ (i : Nat) (l : List String),
      (chunkBatchFrom t s ts total i l).map (fun ch => ch.text) = l := by
  intro i l
  induction l generalizing i with
  | nil => rfl
  | cons a rest ih => simp [chunkBatchFrom, ih]

theorem chunkBatchFrom_map_index (t s ts : String) (total : Nat) :
    ∀ (i : Nat) (l : List String),
      (chunkBatchFrom t s ts total i l).map (fun ch => ch.meta.chunk_index)
        = List.range' i l.length := by
  intro i l
  induction l generalizing i with
  | nil => rfl
  | cons a rest ih => simp [chunkBatchFrom, ih, List.range'_succ]

theorem chunkBatchFrom_mem (t s ts : String) (total : Nat)
    {i : Nat} {l : List String} {ch : StoredChunk}
    (h : ch ∈ chunkBatchFrom t s ts total i l) :
    ch.meta.source_id = s ∧ ch.meta.title = t ∧ ch.meta.timestamp = ts
      ∧ ch.meta.total_chunks = total
      ∧ ch.id = s ++ "_chunk_" ++ toString ch.meta.chunk_index := by
  induction l generalizing i with
  | nil => cases h
  | cons a rest ih =>
      rcases List.mem_cons.mp h with rfl | hmem
      · exact ⟨rfl, rfl, rfl, rfl, rfl⟩
      · exact ih hmem

theorem chunkBatchFrom_filter_self (t s ts : String) (total : Nat)
    (i : Nat) (l : List String) :
    (chunkBatchFrom t s ts total i l).filter (fun ch => ch.meta.source_id == s)
      = chunkBatchFrom t s ts total i l := by
  rw [List.filter_eq_self]
  intro ch hch
  have := (chunkBatchFrom_mem t s ts total hch).1
  simp [this]

theorem chunkBatchFrom_ne_nil (t s ts : String) (total : Nat)
    (i : Nat) {l : List String} (h : l ≠ []) :
    chunkBatchFrom t s ts total i l ≠ [] := by
  cases l with
  | nil => exact absurd rfl h
  | cons a rest => simp [chunkBatchFrom]

theorem memorize_success_eq (env : IngestEnv) (c : Collection)
    (req : MemorizeRequest)
    (hsplit : env.split_text req.content ≠ [])
    (hstore : env.store_fail = none) :
    memorize env c req =
      (⟨"success", sourceIdOf env req.title, req.title,
        "成功存储页面: " ++ req.title ++ " (拆分为 "
          ++ toString (env.split_text req.content).length ++ " 个文本块)"⟩,
       ⟨c.chunks ++ chunkBatch req.title (sourceIdOf env req.title) env.now
          (env.split_text req.content)⟩) := by
  have hbatch : chunkBatch req.title (env.md5hex (req.title ++ env.now))
      env.now (env.split_text req.content) ≠ [] :=
    chunkBatchFrom_ne_nil _ _ _ _ _ hsplit
  simp [memorize, Collection.add, hstore, hbatch, sourceIdOf]

theorem getWhere_memorize (env : IngestEnv) (c : Collection)
    (req : MemorizeRequest)
    (hsplit : env.split_text req.content ≠ [])
    (hstore : env.store_fail = none)
    (hfresh : ∀ ch ∈ c.chunks, ch.meta.source_id ≠ sourceIdOf env req.title) :
    ((memorize env c req).2).getWhere (sourceIdOf env req.title)
      = chunkBatch req.title (sourceIdOf env req.title) env.now
          (env.split_text req.content) := by
  rw [memorize_success_eq env c req hsplit hstore]
  show (⟨c.chunks ++ _⟩ : Collection).getWhere _ = _
  unfold Collection.getWhere
  rw [List.filter_append]
  have hold : c.chunks.filter
      (fun ch => ch.meta.source_id == sourceIdOf env req.title) = [] := by
    rw [List.filter_eq_nil_iff]
    intro ch hch
    simpa using hfresh ch hch
  rw [hold, List.nil_append, chunkBatch, chunkBatchFrom_filter_self]

theorem chat_trace_eq (env : ChatEnv) (c : Collection) (req : ChatRequest) :
    (chat env c req).2
      = if c.count = 0 then [] else [(req.message, min 15 c.count)] := by
  by_cases h : c.count = 0
  · simp [chat, h]
  · simp [chat, h]

theorem chat_free_trace_eq (env : ChatEnv) (c : Collection)
    (req : ChatRequest) :
    (chat_free env c req).2
      = match env.llm with
        | none => []
        | some _ =>
            if 0 < c.count then [(req.message, min 5 c.count)] else [] := by
  cases hL : env.llm with
  | none => simp [chat_free, hL]
  | some g =>
      by_cases h : 0 < c.count
      · simp [chat_free, hL, h]
      · simp [chat_free, hL, h]

theorem snippet_length_le (doc : String) : (snippet doc).length ≤ 153 := by
  unfold snippet
  split
  case isTrue h =>
      rw [String.length_append]
      have h1 : (strTake doc 150).length ≤ 150 := by
        show (doc.data.take 150).length ≤ 150
        simp [List.length_take]
      have h2 : ("..." : String).length = 3 := rfl
      omega
  case isFalse h => omega

theorem snippetEntry_contains_snippet (i : Nat) (hit : QueryHit) :
    strContains (snippetEntry i hit) (snippet hit.doc) := by
  unfold snippetEntry
  exact strContains_here _ _ _

theorem mem_snippetEntriesFrom {hits : List QueryHit} {hit : QueryHit}
    (h : hit ∈ hits) (i : Nat) :
    ∃ j, snippetEntry j hit ∈ snippetEntriesFrom i hits := by
  induction hits generalizing i with
  | nil => cases h
  | cons a rest ih =>
      rcases List.mem_cons.mp h with rfl | hmem
      · exact ⟨i, List.mem_cons_self _ _⟩
      · obtain ⟨j, hj⟩ := ih hmem (i + 1)
        exact ⟨j, List.mem_cons_of_mem _ hj⟩

theorem snippetListing_contains {hits : List QueryHit} {hit : QueryHit}
    (h : hit ∈ hits) (i : Nat) :
    strContains (joinAll (snippetEntriesFrom i hits)) (snippet hit.doc) := by
  obtain ⟨j, hj⟩ := mem_snippetEntriesFrom h i
  exact strContains_trans (strContains_joinAll hj)
    (snippetEntry_contains_snippet j hit)

theorem mem_contextBlocksFrom (block : Nat → QueryHit → String)
    {hits : List QueryHit} {hit : QueryHit} (h : hit ∈ hits) (i : Nat) :
    ∃ j, block j hit ∈ contextBlocksFrom block i hits := by
  induction hits generalizing i with
  | nil => cases h
  | cons a rest ih =>
      rcases List.mem_cons.mp h with rfl | hmem
      · exact ⟨i, List.mem_cons_self _ _⟩
      · obtain ⟨j, hj⟩ := ih hmem (i + 1)
        exact ⟨j, List.mem_cons_of_mem _ hj⟩

theorem strictBlock_contains_doc (i : Nat) (hit : QueryHit) :
    strContains (strictBlock i hit) hit.doc := by
  unfold strictBlock
  exact strContains_suffix _ _

theorem strictBlock_contains_title (i : Nat) (hit : QueryHit) :
    strContains (strictBlock i hit) hit.meta.title :=
  ⟨"[片段 " ++ toString i ++ " - 来自: ",
   ", 块 #" ++ toString hit.meta.chunk_index ++ "]\n" ++ hit.doc,
   by simp [strictBlock, String.append_assoc]⟩

theorem strictBlock_contains_ordinal (i : Nat) (hit : QueryHit) :
    strContains (strictBlock i hit) (toString hit.meta.chunk_index) :=
  ⟨"[片段 " ++ toString i ++ " - 来自: " ++ hit.meta.title ++ ", 块 #",
   "]\n" ++ hit.doc,
   by simp [strictBlock, String.append_assoc]⟩

theorem freeBlock_contains_doc (i : Nat) (hit : QueryHit) :
    strContains (freeBlock i hit) hit.doc := by
  unfold freeBlock
  exact strContains_suffix _ _

theorem freeBlock_contains_title (i : Nat) (hit : QueryHit) :
    strContains (freeBlock i hit) hit.meta.title :=
  ⟨"[参考 " ++ toString i ++ " - ", "]\n" ++ hit.doc,
   by simp [freeBlock, String.append_assoc]⟩

theorem splitW_blank_spec : SplitterBlankSpec splitW := by
  intro s h
  simp [splitW, h]

/-- Claim C1: a `memorize` (POST /memorize) call whose content is empty or
blank fails: the splitter produces no chunks, the store's batch validation
rejects the empty batch before anything is written (the spec's
`EmptyContent`), and the handler returns status `error` with an empty
`doc_id`, the collection left unchanged — so no chunk of that document is
ever stored. -/
theorem memorize_blank_content_not_stored (env : IngestEnv) (c : Collection)
    (req : MemorizeRequest)
    (hspec : SplitterBlankSpec env.split_text)
    (hblank : req.content.data.all (fun ch => ch.isWhitespace) = true) :
    (memorize env c req).1.status = "error"
    ∧ (memorize env c req).1.doc_id = ""
    ∧ (memorize env c req).2 = c := by
  have hs : env.split_text req.content = [] := hspec req.content hblank
  refine ⟨?_, ?_, ?_⟩ <;>
    simp [memorize, Collection.add, hs, chunkBatch, chunkBatchFrom]

/-- Witness for C1 at a concrete whitespace-only request. -/
theorem memorize_blank_content_not_stored_witness :
    (memorize envW ⟨[]⟩ ⟨"T", "  "⟩).1.status = "error"
    ∧ (memorize envW ⟨[]⟩ ⟨"T", "  "⟩).1.doc_id = ""
    ∧ (memorize envW ⟨[]⟩ ⟨"T", "  "⟩).2 = ⟨[]⟩ :=
  memorize_blank_content_not_stored envW ⟨[]⟩ ⟨"T", "  "⟩ splitW_blank_spec
    (by decide)

/-- Claim C10 (implicit): `memorize` never propagates an exception: every
call returns a well-formed response whose status is `success` or `error`;
on `error` the store is unchanged, the message is the 存储失败 failure
message and the `doc_id` is empty; on `success` the `doc_id` is the
document's source id — hence the returned `doc_id` is empty iff the status
is `error`.  The hypothesis records that `hashlib.md5(...).hexdigest()` is
never the empty string (it is always 32 hex characters). -/
theorem memorize_total_response (env : IngestEnv) (c : Collection)
    (req : MemorizeRequest)
    (hmd5 : env.md5hex (req.title ++ env.now) ≠ "") :
    ((memorize env c req).1.status = "success"
        ∨ (memorize env c req).1.status = "error")
    ∧ ((memorize env c req).1.doc_id = ""
        ↔ (memorize env c req).1.status = "error")
    ∧ ((memorize env c req).1.status = "error" →
        (memorize env c req).2 = c
        ∧ ∃ m, (memorize env c req).1.message = "存储失败: " ++ m)
    ∧ ((memorize env c req).1.status = "success" →
        (memorize env c req).1.doc_id = sourceIdOf env req.title) := by
  simp only [memorize]
  cases h : Collection.add env.store_fail c
      (chunkBatch req.title (env.md5hex (req.title ++ env.now)) env.now
        (env.split_text req.content)) with
  | ok c2 =>
      refine ⟨Or.inl rfl, ?_, ?_, fun _ => rfl⟩
      · constructor
        · intro h2
          exact absurd h2 hmd5
        · intro h2
          have h3 : ("success" : String) = "error" := h2
          exact absurd h3 (by decide)
      · intro h2
        have h3 : ("success" : String) = "error" := h2
        exact absurd h3 (by decide)
  | error e =>
      refine ⟨Or.inr rfl, ?_, fun _ => ⟨rfl, e, rfl⟩, ?_⟩
      · simp
      · intro h2
        have h3 : ("error" : String) = "success" := h2
        exact absurd h3 (by decide)

/-- Witness for C10 at a concrete non-blank request. -/
theorem memorize_total_response_witness :
    ((memorize envW ⟨[]⟩ ⟨"T", "hello"⟩).1.doc_id = ""
      ↔ (memorize envW ⟨[]⟩ ⟨"T", "hello"⟩).1.status = "error")
    ∧ (memorize envW ⟨[]⟩ ⟨"T", "hello"⟩).1.status = "success" :=
  ⟨(memorize_total_response envW ⟨[]⟩ ⟨"T", "hello"⟩ (by decide)).2.1,
   by decide⟩

/-- Claim C8: a successful ingestion whose content was split into `n` chunks
writes a batch of exactly `n` chunks; a subsequent filter by the new
document's `source_id` returns exactly those `n` chunks, their `chunk_index`
ordinals are exactly `0, …, n-1` (in order), every chunk's metadata records
`total_chunks = n`, and every chunk id is the source id followed by the
`_chunk_` separator and the chunk's ordinal. -/
theorem memorize_chunk_batch_invariants (env : IngestEnv) (c : Collection)
    (req : MemorizeRequest)
    (hsplit : env.split_text req.content ≠ [])
    (hstore : env.store_fail = none)
    (hfresh : ∀ ch ∈ c.chunks, ch.meta.source_id ≠ sourceIdOf env req.title) :
    (memorize env c req).1.status = "success"
    ∧ ((memorize env c req).2.getWhere (sourceIdOf env req.title)).length
        = (env.split_text req.content).length
    ∧ ((memorize env c req).2.getWhere (sourceIdOf env req.title)).map
          (fun ch => ch.meta.chunk_index)
        = List.range (env.split_text req.content).length
    ∧ ∀ ch ∈ (memorize env c req).2.getWhere (sourceIdOf env req.title),
        ch.meta.total_chunks = (env.split_text req.content).length
        ∧ ch.id = sourceIdOf env req.title ++ "_chunk_"
            ++ toString ch.meta.chunk_index := by
  have hG := getWhere_memorize env c req hsplit hstore hfresh
  refine ⟨?_, ?_, ?_, ?_⟩
  · rw [memorize_success_eq env c req hsplit hstore]
  · rw [hG]
    exact chunkBatchFrom_length _ _ _ _ _ _
  · rw [hG, List.range_eq_range']
    exact chunkBatchFrom_map_index _ _ _ _ _ _
  · rw [hG]
    intro ch hch
    have h := chunkBatchFrom_mem _ _ _ _ hch
    exact ⟨h.2.2.2.1, h.2.2.2.2⟩

/-- Witness for C8 at a concrete one-chunk ingestion into an empty store. -/
theorem memorize_chunk_batch_invariants_witness :
    (memorize envW ⟨[]⟩ ⟨"T", "hello"⟩).1.status = "success"
    ∧ ((memorize envW ⟨[]⟩ ⟨"T", "hello"⟩).2.getWhere
          (sourceIdOf envW "T")).map (fun ch => ch.meta.chunk_index)
        = List.range (envW.split_text "hello").length := by
  have h := memorize_chunk_batch_invariants envW ⟨[]⟩ ⟨"T", "hello"⟩
    (by decide) rfl (by simp)
  exact ⟨h.1, h.2.2.1⟩

/-- Claim C7: GET /pages/(page_id) fails with the not-found error when no
stored chunk matches the given source id; otherwise it returns the
document's title, its creation timestamp, and the full reconstructed text:
the matching chunks' texts joined in ordinal order with the visible `"\n\n"`
separator between chunks (no de-overlap reconciliation — the join of the
raw chunk sequence of the ingestion). -/
theorem get_page_detail_contract :
    (∀ (c : Collection) (pid : String),
        c.getWhere pid = [] → get_page_detail c pid = PageResult.notFound pid)
    ∧ (∀ (env : IngestEnv) (c : Collection) (req : MemorizeRequest),
        env.split_text req.content ≠ [] →
        env.store_fail = none →
        (∀ ch ∈ c.chunks, ch.meta.source_id ≠ sourceIdOf env req.title) →
        get_page_detail (memorize env c req).2 (sourceIdOf env req.title)
          = PageResult.found
              ⟨sourceIdOf env req.title, req.title, env.now,
               (env.split_text req.content).length,
               joinSep "\n\n" (env.split_text req.content)⟩) := by
  constructor
  · intro c pid h
    simp [get_page_detail, h]
  · intro env c req hsplit hstore hfresh
    have hG := getWhere_memorize env c req hsplit hstore hfresh
    simp only [get_page_detail]
    rw [hG]
    rcases hchunks : env.split_text req.content with _ | ⟨a, l⟩
    · exact absurd hchunks hsplit
    · simp [chunkBatch, chunkBatchFrom, chunkBatchFrom_length,
        chunkBatchFrom_map_text]

/-- Witness for C7: a missing page and a freshly ingested one. -/
theorem get_page_detail_contract_witness :
    get_page_detail ⟨[]⟩ "nope" = PageResult.notFound "nope"
    ∧ get_page_detail (memorize envW ⟨[]⟩ ⟨"T", "hello"⟩).2
          (sourceIdOf envW "T")
        = PageResult.found
            ⟨sourceIdOf envW "T", "T", envW.now,
             (envW.split_text "hello").length,
             joinSep "\n\n" (envW.split_text "hello")⟩ :=
  ⟨get_page_detail_contract.1 ⟨[]⟩ "nope" rfl,
   get_page_detail_contract.2 envW ⟨[]⟩ ⟨"T", "hello"⟩ (by decide) rfl
     (by simp)⟩

/-- Claim C4: a strict-mode chat request against an empty store returns
immediately: no similarity query is issued (empty trace), the status is
`success`, and the response is the informative message that echoes the
user's query and invites content ingestion via the Memorize This Page
button. -/
theorem chat_empty_knowledge (env : ChatEnv) (c : Collection)
    (req : ChatRequest) (h : c.count = 0) :
    (chat env c req).2 = []
    ∧ (chat env c req).1.status = "success"
    ∧ (chat env c req).1.response = emptyKnowledgeText req.message
    ∧ strContains (chat env c req).1.response req.message
    ∧ strContains (chat env c req).1.response "Memorize This Page" := by
  have h1 : (chat env c req).1 = ⟨emptyKnowledgeText req.message, "success"⟩ := by
    simp [chat, h]
  have h2 : (chat env c req).2 = [] := by
    simp [chat, h]
  refine ⟨h2, by rw [h1], by rw [h1], ?_, ?_⟩
  · rw [h1]
    show strContains (emptyKnowledgeText req.message) req.message
    unfold emptyKnowledgeText
    exact strContains_here _ _ _
  · rw [h1]
    show strContains (emptyKnowledgeText req.message) "Memorize This Page"
    unfold emptyKnowledgeText
    exact strContains_append_left _
      ⟨"\n\n💡 提示：目前还没有记忆任何页面。点击「", "」按钮来保存页面内容。", by decide⟩

/-- Witness for C4 at a concrete empty store. -/
theorem chat_empty_knowledge_witness :
    (chat envChat ⟨[]⟩ ⟨"hi"⟩).2 = []
    ∧ (chat envChat ⟨[]⟩ ⟨"hi"⟩).1.status = "success"
    ∧ strContains (chat envChat ⟨[]⟩ ⟨"hi"⟩).1.response "hi" := by
  have h := chat_empty_knowledge envChat ⟨[]⟩ ⟨"hi"⟩ rfl
  exact ⟨h.1, h.2.1, h.2.2.2.1⟩

/-- Claim C3: on a non-empty store each answer mode issues exactly one
similarity query whose `top_n` is `min(cap, count())` — cap 15 in strict
mode (`chat`), cap 5 in free-form mode (`chat_free`, when its generation
client is configured), and cap 3 in legacy/simple mode (`legacyRetrieveTopN`,
modelled from the spec: that mode's code is not part of src/backend) — and
every `top_n` ever passed to the similarity capability is bounded by
`min(mode_cap, count())`. -/
theorem retriever_top_n_caps :
    (∀ (env : ChatEnv) (c : Collection) (req : ChatRequest),
        c.count ≠ 0 → (chat env c req).2 = [(req.message, min 15 c.count)])
    ∧ (∀ (env : ChatEnv) (c : Collection) (req : ChatRequest)
        (g : String → String → Except String String),
        env.llm = some g → c.count ≠ 0 →
        (chat_free env c req).2 = [(req.message, min 5 c.count)])
    ∧ (∀ (env : ChatEnv) (c : Collection) (req : ChatRequest),
        ∀ p ∈ (chat env c req).2, p.2 ≤ min 15 c.count)
    ∧ (∀ (env : ChatEnv) (c : Collection) (req : ChatRequest),
        ∀ p ∈ (chat_free env c req).2, p.2 ≤ min 5 c.count)
    ∧ (∀ count : Nat, legacyRetrieveTopN count = min 3 count) := by
  refine ⟨?_, ?_, ?_, ?_, fun _ => rfl⟩
  · intro env c req h
    rw [chat_trace_eq, if_neg h]
  · intro env c req g hg h
    have h0 : 0 < c.count := Nat.pos_of_ne_zero h
    rw [chat_free_trace_eq]
    simp [hg, h0]
  · intro env c req p hp
    rw [chat_trace_eq] at hp
    by_cases h : c.count = 0
    · rw [if_pos h] at hp
      cases hp
    · rw [if_neg h] at hp
      rcases List.mem_singleton.mp hp with rfl
      exact le_refl _
  · intro env c req p hp
    rw [chat_free_trace_eq] at hp
    rcases hL : env.llm with _ | g <;> simp [hL] at hp
    by_cases h : 0 < c.count
    · simp [h] at hp
      rw [hp]
    · simp [h] at hp

/-- Witness for C3: one-chunk store, one query, `top_n = min(cap, 1) = 1`. -/
theorem retriever_top_n_caps_witness :
    (chat envChat collOne ⟨"q"⟩).2 = [("q", 1)]
    ∧ (chat_free envChatFail collOne ⟨"q"⟩).2 = [("q", 1)]
    ∧ legacyRetrieveTopN 7 = 3 := by
  refine ⟨?_, ?_, ?_⟩
  · exact (retriever_top_n_caps.1 envChat collOne ⟨"q"⟩ (by decide)).trans
      (by decide)
  · exact (retriever_top_n_caps.2.1 envChatFail collOne ⟨"q"⟩ _ rfl
      (by decide)).trans (by decide)
  · exact (retriever_top_n_caps.2.2.2.2 7).trans (by decide)

/-- Claim C5: in strict mode, on a non-empty store with non-empty retrieval,
when a generation client is configured and its single generation call fails,
the response has status `fallback` and its text is the visibly marked
degraded rendering: for every retrieved chunk it contains the raw snippet
(the chunk text truncated to the 150-character preview plus the 3-character
ellipsis marker, hence at most 153 characters), plus the error detail. -/
theorem chat_generation_failure_fallback (env : ChatEnv) (c : Collection)
    (req : ChatRequest) (g : String → String → Except String String)
    (e : String)
    (hllm : env.llm = some g)
    (hcount : c.count ≠ 0)
    (hhits : env.query_fn req.message (min 15 c.count) ≠ [])
    (hfail : g strictSystemPrompt
        (strictUserMessage
          (buildContext (env.query_fn req.message (min 15 c.count)))
          req.message) = Except.error e) :
    (chat env c req).1.status = "fallback"
    ∧ (chat env c req).1.response
        = fallbackText (env.query_fn req.message (min 15 c.count)) e
    ∧ (∀ hit ∈ env.query_fn req.message (min 15 c.count),
        strContains (chat env c req).1.response (snippet hit.doc)
        ∧ (snippet hit.doc).length ≤ 153)
    ∧ strContains (chat env c req).1.response ("\n🔧 错误详情: " ++ e) := by
  have hE : (env.query_fn req.message (min 15 c.count)).isEmpty = false := by
    cases hq : env.query_fn req.message (min 15 c.count) with
    | nil => exact absurd hq hhits
    | cons a l => rfl
  have h1 : (chat env c req).1
      = ⟨fallbackText (env.query_fn req.message (min 15 c.count)) e,
         "fallback"⟩ := by
    simp [chat, hcount, hE, hllm, hfail]
  refine ⟨by rw [h1], by rw [h1], ?_, ?_⟩
  · intro hit hmem
    refine ⟨?_, snippet_length_le hit.doc⟩
    rw [h1]
    show strContains
      (fallbackText (env.query_fn req.message (min 15 c.count)) e)
      (snippet hit.doc)
    unfold fallbackText
    exact strContains_append_right _
      (strContains_append_left _ (snippetListing_contains hmem 1))
  · rw [h1]
    show strContains
      (fallbackText (env.query_fn req.message (min 15 c.count)) e)
      ("\n🔧 错误详情: " ++ e)
    unfold fallbackText
    exact strContains_suffix _ _

/-- Witness for C5 at a concrete failing generation client. -/
theorem chat_generation_failure_fallback_witness :
    (chat envChatFail collOne ⟨"q"⟩).1.status = "fallback"
    ∧ strContains (chat envChatFail collOne ⟨"q"⟩).1.response
        (snippet hitW1.doc)
    ∧ strContains (chat envChatFail collOne ⟨"q"⟩).1.response
        ("\n🔧 错误详情: " ++ "boom") := by
  have h := chat_generation_failure_fallback envChatFail collOne ⟨"q"⟩
    (fun _ _ => Except.error "boom") "boom" rfl (by decide) (by decide) rfl
  exact ⟨h.1, (h.2.2.1 hitW1 (by decide)).1, h.2.2.2⟩

/-- Claim C6: with no generation capability configured (empty credential),
a strict-mode request on a non-empty store with non-empty retrieval returns
status `success` with the raw-snippet listing preceded by the configuration
hint, while a free-form request returns the hard `error` status with the
unconfigured message. -/
theorem unconfigured_mode_statuses (env : ChatEnv) (c : Collection)
    (req : ChatRequest) (hllm : env.llm = none) :
    (c.count ≠ 0 → env.query_fn req.message (min 15 c.count) ≠ [] →
      (chat env c req).1.status = "success"
      ∧ (chat env c req).1.response
          = unconfiguredText req.message
              (env.query_fn req.message (min 15 c.count))
      ∧ strContains (chat env c req).1.response "请配置 LLM API Key"
      ∧ ∀ hit ∈ env.query_fn req.message (min 15 c.count),
          strContains (chat env c req).1.response (snippet hit.doc))
    ∧ (chat_free env c req).1.response
        = "⚠️ LLM未配置，请在桌面客户端设置中配置API Key"
    ∧ (chat_free env c req).1.status = "error" := by
  refine ⟨?_, ?_, ?_⟩
  · intro hcount hhits
    have hE : (env.query_fn req.message (min 15 c.count)).isEmpty = false := by
      cases hq : env.query_fn req.message (min 15 c.count) with
      | nil => exact absurd hq hhits
      | cons a l => rfl
    have h1 : (chat env c req).1
        = ⟨unconfiguredText req.message
            (env.query_fn req.message (min 15 c.count)), "success"⟩ := by
      simp [chat, hcount, hE, hllm]
    refine ⟨by rw [h1], by rw [h1], ?_, ?_⟩
    · rw [h1]
      show strContains
        (unconfiguredText req.message
          (env.query_fn req.message (min 15 c.count)))
        "请配置 LLM API Key"
      unfold unconfiguredText
      exact strContains_append_right _ (strContains_append_right _
        (strContains_append_right _
          ⟨"💡 提示：", " 以获得智能问答功能。\n\n根据您的问题「", by decide⟩))
    · intro hit hmem
      rw [h1]
      show strContains
        (unconfiguredText req.message
          (env.query_fn req.message (min 15 c.count)))
        (snippet hit.doc)
      unfold unconfiguredText
      exact strContains_append_left _ (snippetListing_contains hmem 1)
  · simp [chat_free, hllm]
  · simp [chat_free, hllm]

/-- Witness for C6 at a concrete unconfigured environment. -/
theorem unconfigured_mode_statuses_witness :
    (chat envChat collOne ⟨"q"⟩).1.status = "success"
    ∧ (chat_free envChat collOne ⟨"q"⟩).1.status = "error" := by
  have h := unconfigured_mode_statuses envChat collOne ⟨"q"⟩ rfl
  exact ⟨(h.1 (by decide) (by decide)).1, h.2.2⟩

/-- Counterexample to claim C2 as stated: with a configured generation
client whose call fails (raises), the free-form endpoint returns status
`error` — so a configured-but-failing generation call does yield status
`error` in free-form mode, contradicting "never yields status `error` in
any mode". -/
theorem chat_free_configured_failure_error_cex :
    envChatFail.llm.isSome = true
    ∧ (chat_free envChatFail collOne ⟨"q"⟩).1.status = "error" :=
  ⟨rfl, by decide⟩

/-- Claim C2 amended: in strict mode a generation failure is caught by the
Answer Synthesizer and converted into the Fallback state (status
`fallback`), never a hard `error` status; in free-form mode the hard
`error` status arises both when generation is entirely unconfigured and
when a configured generation call fails — the latter being the amendment
forced by the code's generic exception handler in `chat_free`. -/
theorem generation_failure_status_amended :
    (∀ (env : ChatEnv) (c : Collection) (req : ChatRequest)
        (g : String → String → Except String String) (e : String),
        env.llm = some g → (∀ sys usr, g sys usr = Except.error e) →
        (chat env c req).1.status ≠ "error"
        ∧ (c.count ≠ 0 → env.query_fn req.message (min 15 c.count) ≠ [] →
            (chat env c req).1.status = "fallback"))
    ∧ (∀ (env : ChatEnv) (c : Collection) (req : ChatRequest),
        env.llm = none → (chat_free env c req).1.status = "error")
    ∧ (∀ (env : ChatEnv) (c : Collection) (req : ChatRequest)
        (g : String → String → Except String String) (e : String),
        env.llm = some g → (∀ sys usr, g sys usr = Except.error e) →
        (chat_free env c req).1.status = "error") := by
  refine ⟨?_, ?_, ?_⟩
  · intro env c req g e hg hfail
    constructor
    · by_cases h0 : c.count = 0
      · have h1 : (chat env c req).1.status = "success" := by
          simp [chat, h0]
        rw [h1]
        decide
      · cases hq : env.query_fn req.message (min 15 c.count) with
        | nil =>
            have hE : (env.query_fn req.message (min 15 c.count)).isEmpty
                = true := by
              rw [hq]
              rfl
            have h1 : (chat env c req).1.status = "success" := by
              simp [chat, h0, hE]
            rw [h1]
            decide
        | cons a l =>
            have hE : (env.query_fn req.message (min 15 c.count)).isEmpty
                = false := by
              rw [hq]
              rfl
            have h1 : (chat env c req).1.status = "fallback" := by
              simp [chat, h0, hE, hg, hfail]
            rw [h1]
            decide
    · intro h0 hhits
      have hE : (env.query_fn req.message (min 15 c.count)).isEmpty
          = false := by
        cases hq : env.query_fn req.message (min 15 c.count) with
        | nil => exact absurd hq hhits
        | cons a l => rfl
      simp [chat, h0, hE, hg, hfail]
  · intro env c req h
    simp [chat_free, h]
  · intro env c req g e hg hfail
    by_cases h0 : 0 < c.count
    · simp [chat_free, hg, h0, chatFreeGenerate, hfail]
    · simp [chat_free, hg, h0, chatFreeGenerate, hfail]

/-- Witness for amended C2: strict mode falls back, free-form errors, both
on concrete environments. -/
theorem generation_failure_status_amended_witness :
    (chat envChatFail collOne ⟨"q"⟩).1.status = "fallback"
    ∧ (chat_free envChat collOne ⟨"q"⟩).1.status = "error"
    ∧ (chat_free envChatFail collOne ⟨"q"⟩).1.status = "error" := by
  have h1 := generation_failure_status_amended.1 envChatFail collOne ⟨"q"⟩
    (fun _ _ => Except.error "boom") "boom" rfl (fun _ _ => rfl)
  have h2 := generation_failure_status_amended.2.1 envChat collOne ⟨"q"⟩ rfl
  have h3 := generation_failure_status_amended.2.2 envChatFail collOne ⟨"q"⟩
    (fun _ _ => Except.error "boom") "boom" rfl (fun _ _ => rfl)
  exact ⟨h1.2 (by decide) (by decide), h2, h3⟩

/-- Counterexample to claim C9 as stated: the free-form assembler's block
for a chunk with ordinal 7 is `[参考 1 - Notes]\nalpha beta`, which does not
contain the character `7` at all — so a free-form context block does not
carry the chunk's ordinal, contradicting "each block containing … the
provenance (title and ordinal)"; the strict assembler's block does carry
it. -/
theorem free_context_omits_ordinal_cex :
    hitCex.meta.chunk_index = 7
    ∧ buildContextFree [hitCex] = "[参考 1 - Notes]\nalpha beta"
    ∧ (buildContextFree [hitCex]).data.contains '7' = false
    ∧ (buildContext [hitCex]).data.contains '7' = true := by
  refine ⟨rfl, ?_, ?_, ?_⟩ <;> decide

/-- Claim C9 amended: for every retrieval result the assembled context is
the blank-line join of one labeled block per result in rank order; each
block carries the full untruncated chunk text, and its provenance label
carries the title — together with the ordinal in strict mode (`chat`), but
without the ordinal in free-form mode (`chat_free`); an empty retrieval
result produces an empty context string. -/
theorem context_assembly_amended :
    buildContext [] = ""
    ∧ buildContextFree [] = ""
    ∧ (∀ (hits : List QueryHit), ∀ hit ∈ hits,
        strContains (buildContext hits) hit.doc
        ∧ strContains (buildContext hits) hit.meta.title
        ∧ strContains (buildContext hits) (toString hit.meta.chunk_index))
    ∧ (∀ (hits : List QueryHit), ∀ hit ∈ hits,
        strContains (buildContextFree hits) hit.doc
        ∧ strContains (buildContextFree hits) hit.meta.title) := by
  refine ⟨rfl, rfl, ?_, ?_⟩
  · intro hits hit hmem
    obtain ⟨j, hj⟩ := mem_contextBlocksFrom strictBlock hmem 1
    exact ⟨strContains_trans (strContains_joinSep hj)
        (strictBlock_contains_doc j hit),
      strContains_trans (strContains_joinSep hj)
        (strictBlock_contains_title j hit),
      strContains_trans (strContains_joinSep hj)
        (strictBlock_contains_ordinal j hit)⟩
  · intro hits hit hmem
    obtain ⟨j, hj⟩ := mem_contextBlocksFrom freeBlock hmem 1
    exact ⟨strContains_trans (strContains_joinSep hj)
        (freeBlock_contains_doc j hit),
      strContains_trans (strContains_joinSep hj)
        (freeBlock_contains_title j hit)⟩

/-- Witness for amended C9 at a concrete one-hit retrieval result. -/
theorem context_assembly_amended_witness :
    buildContext [] = ""
    ∧ strContains (buildContext [hitW1]) "dog"
    ∧ strContains (buildContextFree [hitW1]) "T1" := by
  have h3 := context_assembly_amended.2.2.1 [hitW1] hitW1 (by simp)
  have h4 := context_assembly_amended.2.2.2 [hitW1] hitW1 (by simp)
  exact ⟨context_assembly_amended.1, h3.1, h4.2⟩

end WebRetrace
